import Mathlib

/-!
# Verification of the SysInfo query-resolution pipeline (`src/llm-agent.js`)

A shallow embedding of the `SystemAgent` class from `src/llm-agent.js`.

External collaborators (the Groq chat-completion client, `child_process.execSync`,
the `systeminformation` and `os` libraries, `JSON.parse`, and the `context.txt`
side file) are modelled as an explicit environment `Env` of oracles: each field
records what the corresponding external call would return (or which error it
would throw) at each call site.  Everything the JavaScript file itself computes
is translated into executable Lean definitions.

Modelling conventions:
* JavaScript strings are Lean `String`s; `toLowerCase`, `trim`, `includes`,
  `replace` are modelled character-exactly for the ASCII fragment the agent
  manipulates.
* A JavaScript function that can throw is an `Except String α` (the `String`
  is the thrown error's `.message`).
* `async/await` sequencing is direct state passing - the agent has no
  intra-query concurrency.
* JSON values are the inductive `JsVal`; `JSON.stringify(v, null, 2)` is
  implemented as `stringifyPretty`, `JSON.parse` is the oracle `Env.jsonParse`
  (a platform library; only its parsed value matters to the agent).
-/

namespace SysInfo

/-- `pat.isPrefixOf`-based substring test: JavaScript `s.includes(pat)` on the
character list level.  Empty pattern is found everywhere, as in JS. -/
def charsIncludes (pat : List Char) : List Char → Bool
  | [] => pat.isEmpty
  | c :: rest => pat.isPrefixOf (c :: rest) || charsIncludes pat rest

/-- JavaScript `s.includes(pat)`. -/
def strIncludes (s pat : String) : Bool :=
  charsIncludes pat.data s.data

/-- JavaScript `s.toLowerCase()` (character-wise; exact on the ASCII fragment
the agent manipulates). -/
def jsToLower (s : String) : String :=
  ⟨s.data.map Char.toLower⟩

/-- Drop trailing whitespace from a character list. -/
def dropTrailWs (l : List Char) : List Char :=
  (l.reverse.dropWhile Char.isWhitespace).reverse

/-- JavaScript `s.trim()`: strip leading and trailing whitespace. -/
def jsTrim (s : String) : String :=
  ⟨dropTrailWs (s.data.dropWhile Char.isWhitespace)⟩

/-- Replace every occurrence of the character `c` by the character list `r`. -/
def replaceCharList (c : Char) (r : List Char) : List Char → List Char
  | [] => []
  | x :: xs =>
      if x = c then r ++ replaceCharList c r xs else x :: replaceCharList c r xs

/-- JavaScript `s.replace(/c/g, r)`: replace every occurrence of the single
character `c` by the string `r`. -/
def replaceChar (s : String) (c : Char) (r : String) : String :=
  ⟨replaceCharList c r.data s.data⟩

/-- JavaScript `s.replace(/^\s*"/, '')`: if the first non-whitespace character
is a double quote, remove the leading whitespace together with that quote;
otherwise the regex does not match and `s` is unchanged. -/
def stripLeadingQuote (s : String) : String :=
  match s.data.dropWhile Char.isWhitespace with
  | '\x22' :: rest => ⟨rest⟩
  | _ => s

/-- JavaScript `s.replace(/"\s*$/, '')`: if the last non-whitespace character
is a double quote, remove it together with the trailing whitespace; otherwise
unchanged. -/
def stripTrailingQuote (s : String) : String :=
  let kept := dropTrailWs s.data
  match kept.getLast? with
  | some c => if c = '\x22' then ⟨kept.dropLast⟩ else s
  | none => s

/-- The quote-stripping clean-up `interpretResult` applies to a successful
completion reply (lines 316 of the source). -/
def stripQuotes (s : String) : String :=
  stripTrailingQuote (stripLeadingQuote s)

/-- JSON values, for the outputs of the structured accessors and for
`JSON.parse`d command output.  Numbers are modelled as integers (every number
the agent itself manufactures is integral; non-integral numbers never reach a
branch a claim depends on). -/
inductive JsVal where
  | jnull : JsVal
  | jbool : Bool → JsVal
  | jnum : Int → JsVal
  | jstr : String → JsVal
  | jarr : List JsVal → JsVal
  | jobj : List (String × JsVal) → JsVal

/-- Character-level JSON escaping. -/
def jsonEscapeList : List Char → List Char
  | [] => []
  | c :: cs =>
      (if c = '\x22' then '\\' :: ['\x22']
        else if c = '\\' then '\\' :: ['\\']
        else if c = '\n' then '\\' :: ['n']
        else if c = '\t' then '\\' :: ['t']
        else if c = '\r' then '\\' :: ['r']
        else [c]) ++ jsonEscapeList cs

/-- Escape a string for JSON output (the common escapes; control characters
other than `\n`, `\t`, `\r` do not occur in the modelled data). -/
def jsonEscape (s : String) : String :=
  ⟨jsonEscapeList s.data⟩

/-- `n` spaces, for `JSON.stringify` indentation. -/
def spaces (n : Nat) : String :=
  String.mk (List.replicate n ' ')

mutual
/-- `JSON.stringify(v, null, 2)` at current indentation `ind`. -/
def stringifyPretty : JsVal → Nat → String
  | .jnull, _ => "null"
  | .jbool b, _ => if b then "true" else "false"
  | .jnum n, _ => toString n
  | .jstr s, _ => "\x22" ++ jsonEscape s ++ "\x22"
  | .jarr [], _ => "[]"
  | .jarr (x :: xs), ind =>
      "[\n" ++ stringifyItems (x :: xs) (ind + 2) ++ "\n" ++ spaces ind ++ "]"
  | .jobj [], _ => "\x7b\x7d"
  | .jobj (f :: fs), ind =>
      "\x7b\n" ++ stringifyFields (f :: fs) (ind + 2) ++ "\n" ++ spaces ind ++ "\x7d"

def stringifyItems : List JsVal → Nat → String
  | [], _ => ""
  | [x], ind => spaces ind ++ stringifyPretty x ind
  | x :: y :: rest, ind =>
      spaces ind ++ stringifyPretty x ind ++ ",\n" ++ stringifyItems (y :: rest) ind

def stringifyFields : List (String × JsVal) → Nat → String
  | [], _ => ""
  | [(k, v)], ind =>
      spaces ind ++ "\x22" ++ jsonEscape k ++ "\x22: " ++ stringifyPretty v ind
  | (k, v) :: f :: rest, ind =>
      spaces ind ++ "\x22" ++ jsonEscape k ++ "\x22: " ++ stringifyPretty v ind
        ++ ",\n" ++ stringifyFields (f :: rest) ind
end

mutual
/-- JavaScript string coercion `${v}` of a JSON value.  (Caveat: JS prints a
`null` array element as the empty string inside `Array.prototype.toString`;
that corner is not exercised by any claim.) -/
def jsToString : JsVal → String
  | .jnull => "null"
  | .jbool b => if b then "true" else "false"
  | .jnum n => toString n
  | .jstr s => s
  | .jarr xs => jsToStringList xs
  | .jobj _ => "[object Object]"

def jsToStringList : List JsVal → String
  | [] => ""
  | [x] => jsToString x
  | x :: y :: rest => jsToString x ++ "," ++ jsToStringList (y :: rest)
end

/-- JavaScript truthiness of a JSON value. -/
def jsTruthy : JsVal → Bool
  | .jnull => false
  | .jbool b => b
  | .jnum n => n ≠ 0
  | .jstr s => s ≠ ""
  | .jarr _ => true
  | .jobj _ => true

/-- The environment of external collaborators: what each outside call returns.
`Except.error m` models a thrown error whose `.message` is `m`.
Generation and execution oracles are indexed by the retry-attempt number,
since each attempt performs a fresh external call. -/
structure Env where
  /-- `process.env.GROQ_API_KEY` is set. -/
  apiKeyPresent : Bool
  /-- `testGroqConnection` succeeds. -/
  connectOk : Bool
  /-- contents of `context.txt` if the file exists. -/
  contextData : Option String
  /-- generation chat call of attempt `k`, given the system prompt and user
  message; `ok content` is `choices[0]?.message?.content` (`none` = missing). -/
  genReply : Nat → String → String → Except String (Option String)
  /-- `execSync('powershell -EncodedCommand …')` of attempt `k` on the
  JSON-directive command text. -/
  execPrimary : Nat → String → Except String String
  /-- the degraded `execSync('powershell -Command "…"')` of attempt `k`. -/
  execSimple : Nat → String → Except String String
  /-- `JSON.parse`: `none` models a `SyntaxError` throw. -/
  jsonParse : String → Option JsVal
  /-- interpretation chat call (at most one per query). -/
  interpReply : Except String (Option String)
  /-- `advancedMethods[key]()` accessor outcome (already shaped records). -/
  advancedResult : String → Except String JsVal
  /-- `fallbackMethods[key]()` accessor outcome, as the string interpolated
  into the built-in-method message. -/
  fallbackResult : String → Except String String

/-- The agent's initialisation (source lines 111-136): succeeds iff the API
key is present and the connection test passes; a failure is caught and
reported as `false`. -/
def initAgent (env : Env) : Bool :=
  env.apiKeyPresent && env.connectOk

/-- The keys of `this.fallbackMethods`, in object-literal insertion order
(source lines 14-23), which is the order `Object.entries` iterates them. -/
def fallbackKeys : List String :=
  ["cores", "cpu", "platform", "memory", "freemem", "uptime", "hostname", "arch"]

/-- The keys of `this.advancedMethods`, in object-literal insertion order
(source lines 25-108). -/
def advancedKeys : List String :=
  ["cpu", "memory", "disk", "storage", "network", "battery", "os", "graphics", "processes"]

/-- The fixed system role of `queryLLM` (source line 157). -/
def basePrompt : String :=
  "You are an expert Windows system administrator. Generate the most appropriate PowerShell commands to answer user questions about their system."

/-- JavaScript template interpolation of a possibly-`null` string. -/
def jsInterp : Option String → String
  | none => "null"
  | some s => s

/-- The system prompt `queryLLM` builds (source lines 157-172): optional
context block from `context.txt`, then the base role, then - when
`previousError` is truthy (non-null and non-empty) - the retry feedback
clause carrying the previous error and previous command. -/
def buildSystemPrompt (env : Env) (previousError failedCommand : Option String) : String :=
  let withContext :=
    match env.contextData with
    | some ctx =>
        if jsTrim ctx = "" then basePrompt
        else "# Additional context:\n" ++ jsTrim ctx ++ "\n\n" ++ basePrompt
    | none => basePrompt
  match previousError with
  | some err =>
      if err = "" then withContext
      else
        withContext ++ "\n\nPrevious attempt failed with error: " ++ err
          ++ "\nPrevious command: " ++ jsInterp failedCommand
          ++ "\nPlease generate a better command that avoids this error."
  | none => withContext

/-- `queryLLM(userQuery, previousError, failedCommand)` of attempt `k`
(source lines 156-192).  Returns the trimmed completion content, or
`"NO_COMMAND"` when the content is missing, empty, or whitespace-only; a
completion failure is rethrown as a `Groq API request failed` error. -/
def queryLLM (env : Env) (k : Nat) (userQuery : String)
    (previousError failedCommand : Option String) : Except String String :=
  match env.genReply k (buildSystemPrompt env previousError failedCommand)
      ("Now answer: \x22" ++ userQuery ++ "\x22") with
  | .error e => .error ("Groq API request failed: " ++ e)
  | .ok content =>
      .ok (if (content.map jsTrim).getD "" = "" then "NO_COMMAND"
        else (content.map jsTrim).getD "")

/-- The loop body of `tryAdvancedMethod` (source lines 201-211): first key
contained in the lowercased query whose accessor does not throw wins; an
accessor failure is caught and the scan continues. -/
def tryAdvancedGo (env : Env) (query : String) : List String → Option String
  | [] => none
  | key :: rest =>
      if strIncludes query key then
        match env.advancedResult key with
        | .ok v => some ("🔬 Advanced system info:\n" ++ stringifyPretty v 0)
        | .error _ => tryAdvancedGo env query rest
      else tryAdvancedGo env query rest

/-- `tryAdvancedMethod(userQuery)` (source lines 198-214). -/
def tryAdvancedMethod (env : Env) (userQuery : String) : Option String :=
  tryAdvancedGo env (jsToLower userQuery) advancedKeys

/-- The loop body of `tryFallbackMethod` (source lines 219-228). -/
def tryFallbackGo (env : Env) (query : String) : List String → Option String
  | [] => none
  | key :: rest =>
      if strIncludes query key then
        match env.fallbackResult key with
        | .ok r => some ("📋 Using built-in method: " ++ r)
        | .error _ => tryFallbackGo env query rest
      else tryFallbackGo env query rest

/-- `tryFallbackMethod(userQuery)` (source lines 216-231): scans the static
fallback table in insertion order; a throwing accessor is caught and later
keys are still tried; no match (or all matches throwing) yields `null`. -/
def tryFallbackMethod (env : Env) (userQuery : String) : Option String :=
  tryFallbackGo env (jsToLower userQuery) fallbackKeys

/-- The command text the primary execution strategy actually runs (source
lines 236-237): double quotes doubled, then the JSON conversion directive
appended.  (The base64/UTF-16 `-EncodedCommand` wrapping is a transport
encoding of exactly this text and is left to the oracle.) -/
def primaryCommand (command : String) : String :=
  replaceChar command '\x22' "\x22\x22" ++ " | ConvertTo-Json -Depth 10"

/-- The degraded command text (source line 260): double quotes replaced by
single quotes. -/
def simpleCommand (command : String) : String :=
  replaceChar command '\x22' "\x27"

/-- `executeCommand(command)` of attempt `k` (source lines 233-272).
Primary strategy: run the JSON-directive command; on success pretty-print the
output if it parses as JSON, otherwise return the trimmed raw text.  If the
primary `execSync` throws, retry once via the simple invocation (trimmed, no
JSON parsing); if that also throws, fail with the primary error's message. -/
def executeCommand (env : Env) (k : Nat) (command : String) : Except String String :=
  match env.execPrimary k (primaryCommand command) with
  | .ok result =>
      match env.jsonParse result with
      | some parsed => .ok (stringifyPretty parsed 0)
      | none => .ok (jsTrim result)
  | .error e =>
      match env.execSimple k (simpleCommand command) with
      | .ok rawResult => .ok (jsTrim rawResult)
      | .error _ => .error ("Command execution failed: " ++ e)

/-- `Math.round` on an exact rational (round half toward positive infinity,
as JavaScript does for the non-negative values that occur here). -/
def jsRound (q : ℚ) : Int :=
  ⌊q + 1 / 2⌋

/-- The JavaScript numeral for the number `m / 100` (`m ≥ 0` and
`Math.round(x*100)/100` always has at most two decimals, printed without
trailing zeros). -/
def hundredthsToString (m : Int) : String :=
  let whole := m / 100
  let frac := m % 100
  if frac = 0 then toString whole
  else if frac % 10 = 0 then toString whole ++ "." ++ toString (frac / 10)
  else if frac < 10 then toString whole ++ ".0" ++ toString frac
  else toString whole ++ "." ++ toString frac

/-- The unit index `Math.floor(Math.log(bytes)/Math.log(1024))` (source line
363), modelled as the exact floor of the base-1024 logarithm.  For the powers
of two the claims evaluate, the IEEE-double computation V8 performs agrees
with the exact value: fdlibm `log` returns `fl(fl(k*ln2_hi) + fl(k*ln2_lo))`
for the exact input `2^k`, and replaying those roundings over ℚ for
`k = 30, 11, 10` shows the quotient double is exactly `3` (resp. rounds into
`[1.1, 1.1 + 2^-51]`), so the floor matches `Nat.log`. -/
def fbIndex (bytes : Nat) : Nat :=
  Nat.log 1024 bytes

/-- `Math.round(bytes / Math.pow(1024, i) * 100)` (source line 364) over
exact rationals. -/
def fbAmount (bytes : Nat) : Int :=
  jsRound ((bytes : ℚ) / (1024 : ℚ) ^ fbIndex bytes * 100)

/-- `formatBytes(bytes)` (source lines 360-365) on a non-negative integral
byte count.  `bytes = 0` is falsy, so the source returns the number itself
(stringified here).  Beyond `TB` the source indexes past the end of `sizes`
and interpolates `undefined`. -/
def formatBytes (bytes : Nat) : String :=
  if bytes = 0 then toString bytes
  else hundredthsToString (fbAmount bytes) ++ " "
    ++ ["B", "KB", "MB", "GB", "TB"].getD (fbIndex bytes) "undefined"

/-- `formatBytes` as applied to an arbitrary JSON field value inside the
fallback formatter.  Falsy or non-numeric input is returned unchanged
(`if (!bytes || isNaN(bytes)) return bytes`); a positive integral number is
formatted; a negative number follows the source's `Math.log` into `NaN`
territory and prints as `NaN undefined`.  (Implicit numeric coercions of
digit strings and booleans are outside the modelled fragment; no claim
depends on them.) -/
def formatBytesJs : JsVal → JsVal
  | .jnum n => if n ≤ 0 then (if n = 0 then .jnum 0 else .jstr "NaN undefined")
               else .jstr (formatBytes n.toNat)
  | v => v

/-- `formatValue(key, value)` (source lines 367-376). -/
def formatValue (key : String) (value : JsVal) : JsVal :=
  let kl := jsToLower key
  if strIncludes kl "memory" || strIncludes kl "size" || strIncludes kl "space"
      || key = "WorkingSet" || key = "TotalPhysicalMemory" then
    formatBytesJs value
  else if strIncludes kl "percentage" || strIncludes kl "usage" then
    .jstr (jsToString value ++ "%")
  else value

/-- Association-list lookup for `item[field]` on a parsed JSON object. -/
def lookupField (fields : List (String × JsVal)) (key : String) : Option JsVal :=
  (fields.find? (fun kv => kv.1 = key)).map Prod.snd

/-- One `<li>` of the fallback formatter's list branch (source lines 332-342):
guess a name field (`Name`/`ProcessName`/`DeviceID`, else the first key) and a
size field (`WorkingSet`/`Size`/`FreeSpace`), byte-format the latter. -/
def fallbackItem (item : JsVal) : String :=
  match item with
  | .jobj fields =>
      let keys := fields.map Prod.fst
      let mainField : Option String :=
        match keys.find? (fun k => k = "Name" || k = "ProcessName" || k = "DeviceID") with
        | some k => some k
        | none => keys.head?
      let nameStr :=
        match mainField with
        | some k =>
            match lookupField fields k with
            | some v => jsToString v
            | none => "undefined"
        | none => "undefined"
      let valueField := keys.find? (fun k => k = "WorkingSet" || k = "Size" || k = "FreeSpace")
      let valuePart :=
        match valueField with
        | some k =>
            let fv := formatBytesJs ((lookupField fields k).getD .jnull)
            if jsTruthy fv then " - " ++ jsToString fv else ""
        | none => ""
      "<li><strong>" ++ nameStr ++ "</strong>" ++ valuePart ++ "</li>"
  | v => "<li>" ++ jsToString v ++ "</li>"

/-- `formatFallbackOutput(userQuery, rawOutput)` (source lines 325-358), the
deterministic local formatter used when the interpretation completion call
fails.  `JSON.parse` failure - and the `TypeError` that `Object.entries(null)`
throws - land in the catch branch; a parsed scalar falls past both structured
branches and is returned as the raw text. -/
def formatFallbackOutput (env : Env) (userQuery rawOutput : String) : String :=
  match env.jsonParse rawOutput with
  | none => "<strong>System Information:</strong><br><pre>" ++ rawOutput ++ "</pre>"
  | some data =>
      match data with
      | .jarr xs =>
          let items := String.join ((xs.take 10).map fallbackItem)
          "<strong>Results for \x22" ++ userQuery ++ "\x22:</strong><ul>" ++ items ++ "</ul>"
      | .jobj fields =>
          String.intercalate "<br>"
            (fields.map (fun kv => "<strong>" ++ kv.1 ++ ":</strong> " ++ jsToString (formatValue kv.1 kv.2)))
      | .jnull => "<strong>System Information:</strong><br><pre>" ++ rawOutput ++ "</pre>"
      | _ => rawOutput

/-- The no-data guard of `interpretResult` (source line 275): raw output is
falsy, or trims to the empty-object or empty-array marker. -/
def emptyMarker (rawOutput : String) : Bool :=
  rawOutput = "" || jsTrim rawOutput = "\x7b\x7d" || jsTrim rawOutput = "[]"

/-- The message the guard returns. -/
def noInfoMessage (userQuery : String) : String :=
  "I couldn\x27t find any information about \x22" ++ userQuery
    ++ "\x22. The command didn\x27t return any data."

/-- `interpretResult(userQuery, command, rawOutput)` (source lines 274-323).
The second component records whether the text-completion service was
contacted.  A successful reply is trimmed, defaulted, and stripped of
wrapping quotes; a failed call is recovered through `formatFallbackOutput`. -/
def interpretResult (env : Env) (userQuery _command rawOutput : String) : String × Bool :=
  if emptyMarker rawOutput then
    (noInfoMessage userQuery, false)
  else
    match env.interpReply with
    | .error _ => (formatFallbackOutput env userQuery rawOutput, true)
    | .ok content =>
        (stripQuotes (if (content.map jsTrim).getD "" = "" then "Could not generate explanation"
          else (content.map jsTrim).getD ""), true)

/-- The `ResponseEnvelope` - the sole artifact `processQuery` returns. -/
structure Envelope where
  interpretation : String
  command : String
  rawOutput : String
deriving DecidableEq, Repr

/-- One generation call of the retry loop, recorded with the
`previousError` / `failedCommand` arguments `processQuery` passed to
`queryLLM` for it (source line 425). -/
structure GenCall where
  prevError : Option String
  prevCommand : Option String
deriving DecidableEq, Repr

/-- The early-exit guard of the retry loop (source line 427): the generated
command is falsy, or its lowercase contains the explicit unknown signal. -/
def llmNoAnswer (llmCommand : String) : Bool :=
  llmCommand = "" || strIncludes (jsToLower llmCommand) "i don\x27t know"

/-- The apology returned when the generator gave up and the static fallback
table has no match (source lines 436-440). -/
def noWayMessage (userQuery : String) : String :=
  "I couldn\x27t find a way to answer \x22" ++ userQuery
    ++ "\x22. Try asking about specific system components like CPU, memory, disk, etc."

/-- The envelope of the generator-gave-up exit (source lines 428-441): the
static fallback result labelled `Used built-in method`, or the final apology
with empty command and output. -/
def noAnswerEnvelope (env : Env) (userQuery : String) : Envelope :=
  match tryFallbackMethod env userQuery with
  | some fallbackResult => ⟨fallbackResult, "Used built-in method", ""⟩
  | none => ⟨noWayMessage userQuery, "", ""⟩

/-- The envelope of the last failed attempt (source lines 456-471): the
static fallback prefixed with the found-another-way banner, or the last-error
report; the `command` field is `lastCommand || ""`. -/
def finalFailureEnvelope (env : Env) (userQuery : String)
    (lastCommand : Option String) (errMsg : String) : Envelope :=
  match tryFallbackMethod env userQuery with
  | some fallbackResult =>
      ⟨"⚡ After several attempts, I found another way!\n\n" ++ fallbackResult,
        "Used fallback method", ""⟩
  | none =>
      ⟨"I couldn\x27t retrieve the information for \x22" ++ userQuery
          ++ "\x22.\n\nLast error: " ++ errMsg
          ++ "\n\nTry asking differently or about a specific component.",
        lastCommand.getD "", ""⟩

/-- The retry loop of `processQuery` (source lines 423-474), by recursion on
the number of attempts left (`attemptsLeft = maxRetries - attempt + 1`, so
`attemptsLeft = 1` is the `attempt === maxRetries` iteration).  `attempt`
numbers the external calls; `lastError` / `lastCommand` are the loop-carried
mutables of the source - `lastCommand` is declared at line 421 and never
assigned, which the model reproduces faithfully.  Besides the result it
returns the list of generation calls made, each with the arguments it
received.  `attemptsLeft = 0` (a negative `maxRetries`) reproduces the
source's fall-through `return undefined` as `none`. -/
def processLoop (env : Env) (userQuery : String) :
    Nat → Nat → Option String → Option String → Option Envelope × List GenCall
  | 0, _, _, _ => (none, [])
  | n + 1, attempt, lastError, lastCommand =>
      let call : GenCall := ⟨lastError, lastCommand⟩
      match queryLLM env attempt userQuery lastError lastCommand with
      | .error e =>
          if n = 0 then
            (some (finalFailureEnvelope env userQuery lastCommand e), [call])
          else
            let rest := processLoop env userQuery n (attempt + 1) (some e) lastCommand
            (rest.1, call :: rest.2)
      | .ok llmCommand =>
          if llmNoAnswer llmCommand then
            (some (noAnswerEnvelope env userQuery), [call])
          else
            match executeCommand env attempt llmCommand with
            | .ok rawResult =>
                (some ⟨(interpretResult env userQuery llmCommand rawResult).1,
                  llmCommand, rawResult⟩, [call])
            | .error e =>
                if n = 0 then
                  (some (finalFailureEnvelope env userQuery lastCommand e), [call])
                else
                  let rest := processLoop env userQuery n (attempt + 1) (some e) lastCommand
                  (rest.1, call :: rest.2)

/-- Number of iterations `for (let attempt = 0; attempt <= maxRetries; ...)`
performs. -/
def attemptBudget (maxRetries : Int) : Nat :=
  (maxRetries + 1).toNat

/-- The usage-style classification of `processQuery` (source lines 390-393). -/
def isUsageQuery (queryLower : String) : Bool :=
  strIncludes queryLower "usage" || strIncludes queryLower "using"
    || strIncludes queryLower "processes" || strIncludes queryLower "running"
    || strIncludes queryLower "services" || strIncludes queryLower "current"

/-- The structured-info shortcut match (source lines 395-397). -/
def advancedMatch (queryLower : String) : Option String :=
  if isUsageQuery queryLower then none
  else advancedKeys.find? (fun key =>
    strIncludes queryLower key && !strIncludes queryLower "usage")

/-- `processQuery(userQuery, maxRetries)` (source lines 377-475), the spec's
`resolve`.  `isInitialized` is the agent's pre-call state.  Returns the
envelope (`none` models the source's silent `return undefined` when the loop
body never runs) together with the recorded generation calls. -/
def processQuery (env : Env) (isInitialized : Bool) (userQuery : String)
    (maxRetries : Int) : Option Envelope × List GenCall :=
  if isInitialized || initAgent env then
    match advancedMatch (jsToLower userQuery) with
    | some _ =>
        match tryAdvancedMethod env userQuery with
        | some advancedResult =>
            let raw := stringifyPretty (.jstr advancedResult) 0
            (some ⟨(interpretResult env userQuery "Used systeminformation package" raw).1,
              "Used systeminformation package", raw⟩, [])
        | none => processLoop env userQuery (attemptBudget maxRetries) 0 none none
    | none => processLoop env userQuery (attemptBudget maxRetries) 0 none none
  else
    (some ⟨"System initialization failed. Using basic methods only.", "", ""⟩, [])

/-- The claim's usage-style condition: the lowercased query contains one of
`usage`, `running`, `processes`, `services`, `current`.  (The source's
classifier at lines 391-393 additionally treats `using` as usage-style, which
only makes the classifier trigger more often.) -/
def usageStyle5 (q : String) : Bool :=
  strIncludes (jsToLower q) "usage" || strIncludes (jsToLower q) "running"
    || strIncludes (jsToLower q) "processes" || strIncludes (jsToLower q) "services"
    || strIncludes (jsToLower q) "current"

/-! ### Concrete environments used by witnesses and counterexamples -/

/-- Every dependency fails: no API key, no connection, every external call
throws, nothing parses. -/
def envFailAll : Env where
  apiKeyPresent := false
  connectOk := false
  contextData := none
  genReply := fun _ _ _ => .error "service unavailable"
  execPrimary := fun _ _ => .error "service unavailable"
  execSimple := fun _ _ => .error "service unavailable"
  jsonParse := fun _ => none
  interpReply := .error "service unavailable"
  advancedResult := fun _ => .error "accessor failed"
  fallbackResult := fun _ => .error "accessor failed"

/-- Initialisation succeeds but generation, execution, interpretation and all
accessors fail. -/
def envDown : Env :=
  { envFailAll with apiKeyPresent := true, connectOk := true }

/-- Generation and execution succeed; the interpretation reply is a lone
double-quote character, which the resolver's quote-stripping reduces to the
empty string. -/
def envQuote : Env :=
  { envDown with
    genReply := fun _ _ _ => .ok (some "cmd")
    execPrimary := fun _ _ => .ok "out"
    interpReply := .ok (some "\x22") }

/-- Attempt 0 generates `cmd1` whose execution fails on both strategies;
attempt 1 generates `cmd2` which executes fine. -/
def envC2 : Env :=
  { envDown with
    genReply := fun k _ _ => if k = 0 then .ok (some "cmd1") else .ok (some "cmd2")
    execPrimary := fun k _ => if k = 0 then .error "boom" else .ok "out"
    interpReply := .ok (some "done") }

/-- The generator answers with an explicit unknown signal. -/
def envC5 : Env :=
  { envDown with genReply := fun _ _ _ => .ok (some "I don\x27t know how to do that") }

/-- The primary execution strategy succeeds with trailing whitespace in its
output, and the output is not JSON. -/
def envC7 : Env :=
  { envDown with execPrimary := fun _ _ => .ok "hello " }

/-- The primary execution strategy outputs text that parses as the JSON
number 5. -/
def envC7w : Env :=
  { envDown with
    execPrimary := fun _ _ => .ok " 5 "
    jsonParse := fun s => if s = " 5 " then some (.jnum 5) else none }

/-- The completion reply content is whitespace-only. -/
def envC9 : Env :=
  { envDown with genReply := fun _ _ _ => .ok (some "   ") }

/-! ### Helper lemmas -/

theorem append_ne_empty_left (a b : String) (h : a ≠ "") : a ++ b ≠ "" := by
  intro hc
  apply h
  have hd := congrArg String.data hc
  simp at hd
  exact String.ext hd.1

/-! ### C8 - byte formatting -/

/-- C8: `formatBytes` applied to 1073741824 returns `"1 GB"`, and applied to
2048 returns `"2 KB"`.  (The unit index is computed here as the exact
base-1024 floor logarithm; replaying fdlibm's double-precision
`Math.log`-quotient for these inputs gives the same indices, see `fbIndex`.) -/
theorem formatBytes_examples :
    formatBytes 1073741824 = "1 GB" ∧ formatBytes 2048 = "2 KB" := by
  have hi1 : fbIndex 1073741824 = 3 := by
    unfold fbIndex
    exact Nat.log_eq_of_pow_le_of_lt_pow (by norm_num) (by norm_num)
  have hi2 : fbIndex 2048 = 1 := by
    unfold fbIndex
    exact Nat.log_eq_of_pow_le_of_lt_pow (by norm_num) (by norm_num)
  have hm1 : fbAmount 1073741824 = 100 := by
    unfold fbAmount jsRound
    rw [hi1]
    norm_num [Int.floor_eq_iff]
  have hm2 : fbAmount 2048 = 200 := by
    unfold fbAmount jsRound
    rw [hi2]
    norm_num [Int.floor_eq_iff]
  unfold formatBytes
  rw [if_neg (by norm_num), if_neg (by norm_num), hm1, hm2, hi1, hi2]
  constructor <;> decide

/-! ### C10 - the static fallback table scan -/

theorem tryFallbackGo_eq_find (env : Env) (q : String) :
    ∀ keys : List String,
      tryFallbackGo env q keys =
        (keys.find? (fun key =>
            strIncludes q key && (env.fallbackResult key).toOption.isSome)).bind
          (fun key => (env.fallbackResult key).toOption.map
            (fun r => "📋 Using built-in method: " ++ r))
  | [] => rfl
  | key :: rest => by
      simp only [tryFallbackGo, List.find?]
      cases hinc : strIncludes q key
      · simpa using tryFallbackGo_eq_find env q rest
      · cases hres : env.fallbackResult key with
        | ok r => simp [Except.toOption, hres]
        | error e =>
            simpa [Except.toOption, hres] using tryFallbackGo_eq_find env q rest

/-- C10: `tryFallbackMethod` returns the formatted result of the first key -
in the fixed table order `cores, cpu, platform, memory, freemem, uptime,
hostname, arch` - that is a substring of the lowercased query and whose
accessor does not throw; a matching key with a throwing accessor is skipped
and later keys are still tried; with no such key the result is `none`
(`null`), and the function never raises (it is total by construction, every
accessor error being caught in the scan). -/
theorem tryFallbackMethod_first_match (env : Env) (userQuery : String) :
    tryFallbackMethod env userQuery =
      (fallbackKeys.find? (fun key =>
          strIncludes (jsToLower userQuery) key && (env.fallbackResult key).toOption.isSome)).bind
        (fun key => (env.fallbackResult key).toOption.map
          (fun r => "📋 Using built-in method: " ++ r)) :=
  tryFallbackGo_eq_find env (jsToLower userQuery) fallbackKeys

/-! ### C9 - `queryLLM` never returns an empty command -/

/-- C9: `queryLLM` never returns an empty string: a successful reply is
either its non-empty trimmed content or the literal `"NO_COMMAND"`; missing,
empty, or whitespace-only content yields exactly `"NO_COMMAND"`, which is not
caught by the resolver's empty-or-unknown guard (`llmNoAnswer`), so it
proceeds to the Command Executor as a command (last conjunct). -/
theorem queryLLM_never_empty (env : Env) (k : Nat) (userQuery : String)
    (previousError failedCommand : Option String) :
    (∀ s, queryLLM env k userQuery previousError failedCommand = .ok s → s ≠ "") ∧
    llmNoAnswer "NO_COMMAND" = false ∧
    (∀ content,
      env.genReply k (buildSystemPrompt env previousError failedCommand)
          ("Now answer: \x22" ++ userQuery ++ "\x22") = .ok content →
      (content.map jsTrim).getD "" = "" →
      queryLLM env k userQuery previousError failedCommand = .ok "NO_COMMAND" ∧
      (∀ n rawResult, executeCommand env k "NO_COMMAND" = .ok rawResult →
        processLoop env userQuery (n + 1) k previousError failedCommand =
          (some ⟨(interpretResult env userQuery "NO_COMMAND" rawResult).1,
            "NO_COMMAND", rawResult⟩,
            [⟨previousError, failedCommand⟩]))) := by
  refine ⟨?_, by decide, ?_⟩
  · intro s hs
    unfold queryLLM at hs
    cases hg : env.genReply k (buildSystemPrompt env previousError failedCommand)
        ("Now answer: \x22" ++ userQuery ++ "\x22") with
    | error e => rw [hg] at hs; cases hs
    | ok content =>
        rw [hg] at hs
        simp only [Except.ok.injEq] at hs
        subst hs
        split
        · decide
        · assumption
  · intro content hg hws
    have hq : queryLLM env k userQuery previousError failedCommand = .ok "NO_COMMAND" := by
      unfold queryLLM
      rw [hg]
      simp [hws]
    refine ⟨hq, ?_⟩
    intro n rawResult hexec
    have hguard : llmNoAnswer "NO_COMMAND" = false := by decide
    simp only [processLoop]
    rw [hq]
    simp [hguard, hexec]

/-- Witness for C9 at a concrete whitespace-only completion reply. -/
theorem queryLLM_never_empty_witness :
    queryLLM envC9 0 "q" none none = .ok "NO_COMMAND" ∧
    llmNoAnswer "NO_COMMAND" = false :=
  ⟨((queryLLM_never_empty envC9 0 "q" none none).2.2 (some "   ") rfl (by decide)).1,
    (queryLLM_never_empty envC9 0 "q" none none).2.1⟩

/-! ### C6 - the interpreter's no-data short-circuit -/

/-- C6: whenever the raw output is falsy (empty) or trims to the empty
structured-collection markers, `interpretResult` returns the
couldn\x27t-find-any-information message and does not contact the
text-completion service (second component `false`). -/
theorem interpretResult_no_data (env : Env) (userQuery command rawOutput : String)
    (h : emptyMarker rawOutput = true) :
    interpretResult env userQuery command rawOutput = (noInfoMessage userQuery, false) := by
  simp [interpretResult, h]

/-- Witness for C6 at raw output `" [] "` (whitespace around the empty-array
marker). -/
theorem interpretResult_no_data_witness :
    emptyMarker " [] " = true ∧
    interpretResult envFailAll "q" "c" " [] " = (noInfoMessage "q", false) :=
  ⟨by decide, interpretResult_no_data envFailAll "q" "c" " [] " (by decide)⟩

/-! ### C7 - the executor's primary-success result -/

/-- C7 (amended): when the primary execution strategy succeeds with output
`r`, `executeCommand` returns the pretty-printed re-serialization of `r` if
`r` parses as JSON, and otherwise returns `jsTrim r` - the *trimmed* raw text,
not the raw text unchanged. -/
theorem executeCommand_primary_success (env : Env) (k : Nat) (command r : String)
    (h : env.execPrimary k (primaryCommand command) = .ok r) :
    executeCommand env k command =
      .ok (match env.jsonParse r with
        | some parsed => stringifyPretty parsed 0
        | none => jsTrim r) := by
  unfold executeCommand
  rw [h]
  cases hp : env.jsonParse r <;> simp [hp]

/-- Counterexample to C7 as stated: the primary strategy succeeds with the
non-JSON output `"hello "`, and `executeCommand` returns `"hello"`, not the
raw output unchanged. -/
theorem executeCommand_trims_counterexample :
    envC7.execPrimary 0 (primaryCommand "Get-Date") = .ok "hello " ∧
    envC7.jsonParse "hello " = none ∧
    executeCommand envC7 0 "Get-Date" = .ok "hello" ∧
    "hello" ≠ ("hello " : String) :=
  ⟨rfl, rfl, rfl, by decide⟩

/-- Witness for the amended C7 at output `" 5 "` parsing as the JSON
number 5. -/
theorem executeCommand_primary_success_witness :
    envC7w.execPrimary 0 (primaryCommand "Get-Date") = .ok " 5 " ∧
    executeCommand envC7w 0 "Get-Date" =
      .ok (match envC7w.jsonParse " 5 " with
        | some parsed => stringifyPretty parsed 0
        | none => jsTrim " 5 ") :=
  ⟨rfl, executeCommand_primary_success envC7w 0 "Get-Date" " 5 " rfl⟩

/-! ### C5 - early exit on an empty or unknown generator result -/

/-- C5: whenever the generator returns an empty result or one whose lowercase
contains the unknown signal, the retry loop exits immediately with one more
recorded generation call, regardless of the remaining retries `n`: the static
fallback result labelled `Used built-in method` with empty raw output if the
table matches, otherwise the couldn\x27t-find-a-way envelope with empty
command and raw output. -/
theorem processLoop_unknown_exit (env : Env) (userQuery : String) (n k : Nat)
    (lastError lastCommand : Option String) (s : String)
    (hgen : queryLLM env k userQuery lastError lastCommand = .ok s)
    (hno : llmNoAnswer s = true) :
    processLoop env userQuery (n + 1) k lastError lastCommand
      = (some (noAnswerEnvelope env userQuery), [⟨lastError, lastCommand⟩]) ∧
    (∀ fb, tryFallbackMethod env userQuery = some fb →
      noAnswerEnvelope env userQuery = ⟨fb, "Used built-in method", ""⟩) ∧
    (tryFallbackMethod env userQuery = none →
      noAnswerEnvelope env userQuery = ⟨noWayMessage userQuery, "", ""⟩) := by
  refine ⟨?_, ?_, ?_⟩
  · simp only [processLoop]
    rw [hgen]
    simp [hno]
  · intro fb hfb
    unfold noAnswerEnvelope
    rw [hfb]
  · intro hnone
    unfold noAnswerEnvelope
    rw [hnone]

/-- Witness for C5: an explicit unknown reply on attempt 1 with two retries
still available exits at once. -/
theorem processLoop_unknown_exit_witness :
    queryLLM envC5 0 "hello" none none = .ok "I don\x27t know how to do that" ∧
    llmNoAnswer "I don\x27t know how to do that" = true ∧
    processLoop envC5 "hello" 3 0 none none
      = (some (noAnswerEnvelope envC5 "hello"), [⟨none, none⟩]) :=
  ⟨rfl, by decide,
    (processLoop_unknown_exit envC5 "hello" 2 0 none none
      "I don\x27t know how to do that" rfl (by decide)).1⟩

/-! ### C4 - the generation-call budget -/

theorem processLoop_genCalls_le (env : Env) (q : String) :
    ∀ (fuel k : Nat) (e c : Option String),
      (processLoop env q fuel k e c).2.length ≤ fuel := by
  intro fuel
  induction fuel with
  | zero => intro k e c; simp [processLoop]
  | succ n ih =>
      intro k e c
      simp only [processLoop]
      cases hg : queryLLM env k q e c with
      | error eMsg =>
          by_cases hn : n = 0
          · simp [hn]
          · simpa [hn] using Nat.succ_le_succ (ih (k + 1) (some eMsg) c)
      | ok cmd =>
          by_cases hna : llmNoAnswer cmd
          · simp [hna]
          · cases hex : executeCommand env k cmd with
            | ok raw => simp [hna, hex]
            | error eMsg =>
                by_cases hn : n = 0
                · simp [hna, hex, hn]
                · simpa [hna, hex, hn] using Nat.succ_le_succ (ih (k + 1) (some eMsg) c)

/-- C4: for every query and every `maxRetries ≥ 0`, `processQuery` makes at
most `maxRetries + 1` generation calls (the recorded call list is a complete
account of the `queryLLM` invocations) and terminates - the model is a total
function, and the loop runs on the finite budget `attemptBudget`.  With the
default `maxRetries = 2` this bounds a query at 3 generation calls (witness). -/
theorem processQuery_generation_bound (env : Env) (b : Bool) (q : String)
    (mr : Int) (hmr : 0 ≤ mr) :
    ((processQuery env b q mr).2.length : Int) ≤ mr + 1 := by
  have hloop : ∀ e c, ((processLoop env q (attemptBudget mr) 0 e c).2.length : Int) ≤ mr + 1 := by
    intro e c
    have h1 := processLoop_genCalls_le env q (attemptBudget mr) 0 e c
    have h2 : ((attemptBudget mr : Nat) : Int) = mr + 1 := by
      unfold attemptBudget
      exact Int.toNat_of_nonneg (by linarith)
    calc ((processLoop env q (attemptBudget mr) 0 e c).2.length : Int)
        ≤ ((attemptBudget mr : Nat) : Int) := by exact_mod_cast h1
      _ = mr + 1 := h2
  unfold processQuery
  split
  · split
    · split
      · simpa using (by linarith : (0 : Int) ≤ mr + 1)
      · exact hloop none none
    · exact hloop none none
  · simpa using (by linarith : (0 : Int) ≤ mr + 1)

/-- Witness for C4 at the default `maxRetries = 2`. -/
theorem processQuery_generation_bound_witness :
    (0 : Int) ≤ 2 ∧
    ((processQuery envFailAll true "hello" 2).2.length : Int) ≤ 2 + 1 :=
  ⟨by decide, processQuery_generation_bound envFailAll true "hello" 2 (by decide)⟩

/-! ### C3 - usage-style queries never take the structured-info shortcut -/

/-- C3: a query whose lowercase contains `usage`, `running`, `processes`,
`services` or `current` never reaches `tryAdvancedMethod` (so no structured
accessor is invoked - the branch taken, `processLoop`, does not consult
`Env.advancedResult`), even if the query also contains a structured-info
keyword such as `cpu`: on an initialized agent it proceeds directly to the
command-generation loop, and otherwise initialization decides between the
loop and the degraded-mode envelope. -/
theorem usage_query_skips_advanced (env : Env) (b : Bool) (q : String) (mr : Int)
    (h : usageStyle5 q = true) :
    processQuery env b q mr =
      (if b || initAgent env
        then processLoop env q (attemptBudget mr) 0 none none
        else (some ⟨"System initialization failed. Using basic methods only.", "", ""⟩, [])) := by
  have hu : isUsageQuery (jsToLower q) = true := by
    unfold usageStyle5 at h
    unfold isUsageQuery
    simp only [Bool.or_eq_true] at h ⊢
    tauto
  have hadv : advancedMatch (jsToLower q) = none := by
    unfold advancedMatch
    rw [hu]
    simp
  unfold processQuery
  rw [hadv]

/-- Witness for C3 at the query `"cpu usage"`, which contains the structured
keyword `cpu`. -/
theorem usage_query_skips_advanced_witness :
    usageStyle5 "cpu usage" = true ∧
    processQuery envFailAll true "cpu usage" 2 =
      (if true || initAgent envFailAll
        then processLoop envFailAll "cpu usage" (attemptBudget 2) 0 none none
        else (some ⟨"System initialization failed. Using basic methods only.", "", ""⟩, [])) :=
  ⟨by decide, usage_query_skips_advanced envFailAll true "cpu usage" 2 (by decide)⟩

/-! ### C2 - the retry feedback never carries the failed command -/

theorem processLoop_prevCommand_invariant (env : Env) (q : String) :
    ∀ (fuel k : Nat) (e : Option String) (call : GenCall),
      call ∈ (processLoop env q fuel k e none).2 → call.prevCommand = none := by
  intro fuel
  induction fuel with
  | zero => intro k e call hc; simp [processLoop] at hc
  | succ n ih =>
      intro k e call hc
      simp only [processLoop] at hc
      cases hg : queryLLM env k q e none with
      | error eMsg =>
          rw [hg] at hc
          by_cases hn : n = 0
          · simp [hn] at hc
            rw [hc]
          · simp [hn] at hc
            cases hc with
            | inl h => rw [h]
            | inr h => exact ih (k + 1) (some eMsg) call h
      | ok cmd =>
          rw [hg] at hc
          by_cases hna : llmNoAnswer cmd
          · simp [hna] at hc
            rw [hc]
          · simp only [hna, Bool.false_eq_true, if_false] at hc
            cases hex : executeCommand env k cmd with
            | ok raw =>
                rw [hex] at hc
                simp at hc
                rw [hc]
            | error eMsg =>
                rw [hex] at hc
                by_cases hn : n = 0
                · simp [hn] at hc
                  rw [hc]
                · simp [hn] at hc
                  cases hc with
                  | inl h => rw [h]
                  | inr h => exact ih (k + 1) (some eMsg) call h

/-- C2 (evaluating the code at a failing input): in `envC2`, attempt 1
generates `cmd1` whose execution fails with
`Command execution failed: boom`, yet the generation call of attempt 2
receives `prevCommand = none` - the source's `lastCommand` (line 421) is
never assigned in the catch block, so `queryLLM` is always called with
`failedCommand = null` (second conjunct: on every run whatsoever every
recorded generation call has `prevCommand = none`), contradicting the claimed
invariant that attempt `k > 1` receives the command text of attempt `k-1`.
(The error text *is* forwarded, as the recorded `prevError` shows.) -/
theorem processQuery_prevCommand_bug :
    processQuery envC2 true "hello" 2 =
      (some ⟨"done", "cmd2", "out"⟩,
        [⟨none, none⟩, ⟨some "Command execution failed: boom", none⟩]) ∧
    (∀ (env : Env) (b : Bool) (q : String) (mr : Int) (call : GenCall),
      call ∈ (processQuery env b q mr).2 → call.prevCommand = none) := by
  refine ⟨rfl, ?_⟩
  intro env b q mr call hc
  unfold processQuery at hc
  split at hc
  · split at hc
    · split at hc
      · simp at hc
      · exact processLoop_prevCommand_invariant env q (attemptBudget mr) 0 none call hc
    · exact processLoop_prevCommand_invariant env q (attemptBudget mr) 0 none call hc
  · simp at hc

/-! ### C1 - totality and non-empty interpretation -/

theorem tryFallbackGo_some_ne (env : Env) (q : String) :
    ∀ (keys : List String) (fb : String),
      tryFallbackGo env q keys = some fb → fb ≠ ""
  | [], fb => by intro h; cases h
  | key :: rest, fb => by
      intro h
      simp only [tryFallbackGo] at h
      by_cases hinc : strIncludes q key
      · rw [if_pos hinc] at h
        cases hres : env.fallbackResult key with
        | ok r =>
            rw [hres] at h
            simp only [Option.some.injEq] at h
            rw [← h]
            exact append_ne_empty_left _ _ (by decide)
        | error e =>
            rw [hres] at h
            exact tryFallbackGo_some_ne env q rest fb h
      · rw [if_neg hinc] at h
        exact tryFallbackGo_some_ne env q rest fb h

theorem noAnswerEnvelope_interp_ne (env : Env) (q : String) :
    (noAnswerEnvelope env q).interpretation ≠ "" := by
  unfold noAnswerEnvelope
  cases hf : tryFallbackMethod env q with
  | some fb =>
      unfold tryFallbackMethod at hf
      simpa using tryFallbackGo_some_ne env (jsToLower q) fallbackKeys fb hf
  | none =>
      show noWayMessage q ≠ ""
      unfold noWayMessage
      exact append_ne_empty_left _ _ (append_ne_empty_left _ _ (by decide))

theorem finalFailureEnvelope_interp_ne (env : Env) (q : String)
    (lastCommand : Option String) (errMsg : String) :
    (finalFailureEnvelope env q lastCommand errMsg).interpretation ≠ "" := by
  unfold finalFailureEnvelope
  cases hf : tryFallbackMethod env q with
  | some fb =>
      show "⚡ After several attempts, I found another way!\n\n" ++ fb ≠ ""
      exact append_ne_empty_left _ _ (by decide)
  | none =>
      show "I couldn\x27t retrieve the information for \x22" ++ q
          ++ "\x22.\n\nLast error: " ++ errMsg
          ++ "\n\nTry asking differently or about a specific component." ≠ ""
      exact append_ne_empty_left _ _
        (append_ne_empty_left _ _
          (append_ne_empty_left _ _ (append_ne_empty_left _ _ (by decide))))

theorem processLoop_some_interp_ne (env : Env) (q : String)
    (hint : ∀ c raw, (interpretResult env q c raw).1 ≠ "") :
    ∀ (fuel k : Nat) (e c : Option String), fuel ≠ 0 →
      ∃ ev, (processLoop env q fuel k e c).1 = some ev ∧ ev.interpretation ≠ "" := by
  intro fuel
  induction fuel with
  | zero => intro k e c h; exact absurd rfl h
  | succ n ih =>
      intro k e c _
      simp only [processLoop]
      cases hg : queryLLM env k q e c with
      | error eMsg =>
          by_cases hn : n = 0
          · exact ⟨finalFailureEnvelope env q c eMsg, by simp [hn],
              finalFailureEnvelope_interp_ne env q c eMsg⟩
          · obtain ⟨ev, h1, h2⟩ := ih (k + 1) (some eMsg) c hn
            exact ⟨ev, by simp [hn, h1], h2⟩
      | ok cmd =>
          by_cases hna : llmNoAnswer cmd
          · exact ⟨noAnswerEnvelope env q, by simp [hna], noAnswerEnvelope_interp_ne env q⟩
          · cases hex : executeCommand env k cmd with
            | ok raw =>
                exact ⟨⟨(interpretResult env q cmd raw).1, cmd, raw⟩,
                  by simp [hna, hex], hint cmd raw⟩
            | error eMsg =>
                by_cases hn : n = 0
                · exact ⟨finalFailureEnvelope env q c eMsg, by simp [hna, hex, hn],
                    finalFailureEnvelope_interp_ne env q c eMsg⟩
                · obtain ⟨ev, h1, h2⟩ := ih (k + 1) (some eMsg) c hn
                  exact ⟨ev, by simp [hna, hex, hn, h1], h2⟩

/-- C1 (amended): for every query, every environment behaviour, and every
`maxRetries ≥ 0`, `processQuery` returns exactly one `ResponseEnvelope` (it is
a total function of the model, so no uncaught error escapes), and the
envelope's `interpretation` is non-empty provided the Result Interpreter
never yields an empty interpretation - the hypothesis `hint`, which the code
does not guarantee (see the counterexample: a successful completion reply
consisting of a lone quote character strips to the empty string).  For
`maxRetries < 0` the retry loop can fall through without producing any
envelope (the source's silent `return undefined`), which the counterexample
also exhibits. -/
theorem processQuery_total_nonempty (env : Env) (b : Bool) (q : String)
    (mr : Int) (hmr : 0 ≤ mr)
    (hint : ∀ c raw, (interpretResult env q c raw).1 ≠ "") :
    ∃ ev, (processQuery env b q mr).1 = some ev ∧ ev.interpretation ≠ "" := by
  have hb : attemptBudget mr ≠ 0 := by unfold attemptBudget; omega
  unfold processQuery
  split
  · cases hadv : advancedMatch (jsToLower q) with
    | some key =>
        cases hta : tryAdvancedMethod env q with
        | some ar =>
            exact ⟨⟨(interpretResult env q "Used systeminformation package"
                (stringifyPretty (.jstr ar) 0)).1,
              "Used systeminformation package", stringifyPretty (.jstr ar) 0⟩,
              by simp, hint "Used systeminformation package" _⟩
        | none =>
            show ∃ ev, (processLoop env q (attemptBudget mr) 0 none none).1 = some ev
              ∧ ev.interpretation ≠ ""
            exact processLoop_some_interp_ne env q hint (attemptBudget mr) 0 none none hb
    | none =>
        show ∃ ev, (processLoop env q (attemptBudget mr) 0 none none).1 = some ev
          ∧ ev.interpretation ≠ ""
        exact processLoop_some_interp_ne env q hint (attemptBudget mr) 0 none none hb
  · exact ⟨⟨"System initialization failed. Using basic methods only.", "", ""⟩,
      rfl, by decide⟩

/-- Counterexample to C1 as stated ("for every maxRetries value" and
"interpretation is never empty"): with `maxRetries = -1` the loop body never
runs and no envelope is produced; and in `envQuote` - generation and
execution succeed, the interpretation reply is a lone quote character - the
returned envelope's `interpretation` is the empty string. -/
theorem processQuery_c1_counterexample :
    (processQuery envDown true "hello" (-1)).1 = none ∧
    (processQuery envQuote true "hello" 0).1 = some ⟨"", "cmd", "out"⟩ :=
  ⟨rfl, rfl⟩

/-- Witness for the amended C1: initialization succeeds and every other
dependency fails; with the default two retries a well-formed envelope with
non-empty interpretation is still produced. -/
theorem processQuery_total_nonempty_witness :
    (0 : Int) ≤ 2 ∧
    (∃ ev, (processQuery envDown false "hello" 2).1 = some ev ∧ ev.interpretation ≠ "") :=
  ⟨by decide,
    processQuery_total_nonempty envDown false "hello" 2 (by decide)
      (by
        intro c raw
        unfold interpretResult
        split
        · show noInfoMessage "hello" ≠ ""
          decide
        · show (formatFallbackOutput envDown "hello" raw, true).1 ≠ ""
          show "<strong>System Information:</strong><br><pre>" ++ raw ++ "</pre>" ≠ ""
          exact append_ne_empty_left _ _ (append_ne_empty_left _ _ (by decide)))⟩

end SysInfo
